import Mathlib

/-!
A shallow embedding of `src/hotspot/share/gc/shenandoah/shenandoahRootVerifier.cpp`.

The verifier's observable behaviour is modelled at the level the file itself works
at: which external root sources get queried, in which order, and how the scoped
`ShenandoahGCStateResetter` interacts with the two pieces of global collector
state it guards.  The external sources (code cache, class loader graph, handle
tables, weak processor, string-dedup table, thread stacks) are collaborators, so
a walk is represented by the sequence of source visits it dispatches together
with the effect of the per-visit callback on the mutable heap state.

C `unsigned int` arithmetic is carried out on `Nat`, with an explicit 32-bit
mask wherever complement is involved.
-/

/-- The external root sources that `shenandoahRootVerifier.cpp` can dispatch a
visit to.  Each constructor corresponds to one call site in the three walking
entry points:
`CodeCacheBlobs` to `CodeCache::blobs_do`,
`CLDGraph` to `ClassLoaderDataGraph::cld_do`,
`StrongCLDGraph` to `ClassLoaderDataGraph::roots_cld_do`,
`JNIHandles` to `JNIHandles::oops_do`,
`VMGlobal` to `Universe::vm_global()->oops_do`,
`WeakProcessorAlwaysAlive` to `WeakProcessor::weak_oops_do` with an
`AlwaysTrueClosure` liveness predicate,
`SerialWeakPhases` to `serial_weak_roots_do`,
`ConcurrentWeakStorages` to `concurrent_weak_roots_do`,
`StringDedupTable` to `ShenandoahStringDedup::oops_do_slow`,
`Threads` to `Threads::possibly_parallel_oops_do`. -/
inductive RootSource where
  | CodeCacheBlobs
  | CLDGraph
  | StrongCLDGraph
  | JNIHandles
  | VMGlobal
  | WeakProcessorAlwaysAlive
  | SerialWeakPhases
  | ConcurrentWeakStorages
  | StringDedupTable
  | Threads
  deriving DecidableEq, Repr

/-- Mutable collector and runtime state as visible to this subsystem: the two
fields the `ShenandoahGCStateResetter` guards, plus an abstract remainder
(`other`) standing for every other piece of process state that a visit
callback may mutate during a walk. -/
structure ShenandoahHeap where
  gc_state : Nat
  concurrent_weak_root_in_progress : Bool
  other : Nat
  deriving DecidableEq, Repr

/-- `shenandoahRootVerifier.cpp` lines 43-53: the scope guard snapshotting the
collector phase-state bitfield and the concurrent-weak-in-progress flag. -/
structure ShenandoahGCStateResetter where
  _gc_state : Nat
  _concurrent_weak_root_in_progress : Bool
  deriving DecidableEq, Repr

/-- Constructor (lines 43-46): capture both values from the live heap. -/
def ShenandoahGCStateResetter.construct (heap : ShenandoahHeap) : ShenandoahGCStateResetter :=
  ⟨heap.gc_state, heap.concurrent_weak_root_in_progress⟩

/-- Destructor (lines 48-53): unconditionally write both snapshots back into
the live heap state; every other piece of state is left exactly as the guarded
scope produced it. -/
def ShenandoahGCStateResetter.destruct (r : ShenandoahGCStateResetter) (heap : ShenandoahHeap) : ShenandoahHeap :=
  ⟨r._gc_state, r._concurrent_weak_root_in_progress, heap.other⟩

/-- The verifier object: holds the configured root-type bitmask `_types`
(a C `uint` value, here a `Nat`). -/
structure ShenandoahRootVerifier where
  _types : Nat
  deriving DecidableEq, Repr

/-- Modelled from the spec: the `RootTypes` enumeration is declared in
`shenandoahRootVerifier.hpp`, which is not among the provided sources; the
spec (section 3) fixes nine disjoint single-bit categories, listed in its
order.  This is the bit for the compiled-code category. -/
def ShenandoahRootVerifier.CodeRoots : Nat := 1 <<< 0

/-- Modelled from the spec: bit for the class-loader-graph category. -/
def ShenandoahRootVerifier.CLDGRoots : Nat := 1 <<< 1

/-- Modelled from the spec: bit for the legacy serial category (visits nothing). -/
def ShenandoahRootVerifier.SerialRoots : Nat := 1 <<< 2

/-- Modelled from the spec: bit for the handle-table category. -/
def ShenandoahRootVerifier.JNIHandleRoots : Nat := 1 <<< 3

/-- Modelled from the spec: bit for the full weak-root category. -/
def ShenandoahRootVerifier.WeakRoots : Nat := 1 <<< 4

/-- Modelled from the spec: bit for the serial (phase-enumerated) weak-root category. -/
def ShenandoahRootVerifier.SerialWeakRoots : Nat := 1 <<< 5

/-- Modelled from the spec: bit for the concurrent-storage weak-root category. -/
def ShenandoahRootVerifier.ConcurrentWeakRoots : Nat := 1 <<< 6

/-- Modelled from the spec: bit for the string-deduplication category. -/
def ShenandoahRootVerifier.StringDedupRoots : Nat := 1 <<< 7

/-- Modelled from the spec: bit for the thread-root category. -/
def ShenandoahRootVerifier.ThreadRoots : Nat := 1 <<< 8

/-- Modelled from the spec: `AllRoots` is the bitwise union of all nine categories. -/
def ShenandoahRootVerifier.AllRoots : Nat :=
  ShenandoahRootVerifier.CodeRoots ||| ShenandoahRootVerifier.CLDGRoots |||
  ShenandoahRootVerifier.SerialRoots ||| ShenandoahRootVerifier.JNIHandleRoots |||
  ShenandoahRootVerifier.WeakRoots ||| ShenandoahRootVerifier.SerialWeakRoots |||
  ShenandoahRootVerifier.ConcurrentWeakRoots ||| ShenandoahRootVerifier.StringDedupRoots |||
  ShenandoahRootVerifier.ThreadRoots

/-- The C++ expression `~static_cast<uint>(x)` at the 32-bit width of
`unsigned int`: complement against the all-ones 32-bit mask. -/
def uintNot (x : Nat) : Nat := (2 ^ 32 - 1) ^^^ x

/-- Lines 62-64: `_types = _types & ~types`, narrowing the working set. -/
def ShenandoahRootVerifier.excludes (v : ShenandoahRootVerifier) (types : Nat) : ShenandoahRootVerifier :=
  ⟨v._types &&& uintNot types⟩

/-- Lines 66-68: the containment test `(_types & type) == type`. -/
def ShenandoahRootVerifier.verify (v : ShenandoahRootVerifier) (type : Nat) : Bool :=
  (v._types &&& type) == type

/-- Lines 70-72: bitwise OR of two root-type masks. -/
def ShenandoahRootVerifier.combine (t1 t2 : Nat) : Nat := t1 ||| t2

/-- Lines 74-122: the filtered walk.  Each selected category dispatches to its
source in the fixed textual order of the function body; `SerialRoots`
(lines 89-91) only asserts a safepoint and visits no source; the three weak
categories (lines 99-108) form an if / else-if / else-if chain; string dedup
(lines 110-113) additionally requires the feature to be enabled; thread roots
(lines 115-121) come last.  The callback's effect on mutable state is folded
over the visit sequence inside the `ShenandoahGCStateResetter` scope
(line 75), whose restore runs at scope exit. -/
def ShenandoahRootVerifier.oops_do (v : ShenandoahRootVerifier) (stringDedupEnabled : Bool)
    (eff : RootSource → ShenandoahHeap → ShenandoahHeap) (heap : ShenandoahHeap) :
    List RootSource × ShenandoahHeap :=
  let resetter := ShenandoahGCStateResetter.construct heap
  let trace :=
    (if v.verify CodeRoots then [RootSource.CodeCacheBlobs] else []) ++
    ((if v.verify CLDGRoots then [RootSource.CLDGraph] else []) ++
    ((if v.verify JNIHandleRoots then [RootSource.JNIHandles, RootSource.VMGlobal] else []) ++
    ((if v.verify WeakRoots then [RootSource.WeakProcessorAlwaysAlive]
      else if v.verify SerialWeakRoots then [RootSource.SerialWeakPhases]
      else if v.verify ConcurrentWeakRoots then [RootSource.ConcurrentWeakStorages] else []) ++
    ((if stringDedupEnabled && v.verify StringDedupRoots then [RootSource.StringDedupTable] else []) ++
    (if v.verify ThreadRoots then [RootSource.Threads] else [])))))
  let final := trace.foldl (fun h s => eff s h) heap
  (trace, resetter.destruct final)

/-- Lines 124-148: the full walk.  It never reads `_types`: the body
unconditionally visits code cache, class-loader graph, both handle tables, the
full weak walk under an `AlwaysTrueClosure`, the string-dedup table when the
feature is enabled, and, last, thread roots — all inside the resetter scope
(line 125). -/
def ShenandoahRootVerifier.roots_do (v : ShenandoahRootVerifier) (stringDedupEnabled : Bool)
    (eff : RootSource → ShenandoahHeap → ShenandoahHeap) (heap : ShenandoahHeap) :
    List RootSource × ShenandoahHeap :=
  let resetter := ShenandoahGCStateResetter.construct heap
  let trace :=
    [RootSource.CodeCacheBlobs, RootSource.CLDGraph, RootSource.JNIHandles, RootSource.VMGlobal,
     RootSource.WeakProcessorAlwaysAlive] ++
    ((if stringDedupEnabled then [RootSource.StringDedupTable] else []) ++
    [RootSource.Threads])
  let final := trace.foldl (fun h s => eff s h) heap
  (trace, resetter.destruct final)

/-- Lines 150-166: the strong-only walk.  The body constructs a code-blob
closure but never calls `CodeCache::blobs_do`; it visits the strong subset of
the class-loader graph (`roots_cld_do`), both handle tables, and, last, thread
roots (to which the code-blob closure is passed), all inside the resetter
scope (line 151).  No weak source and no string-dedup source is visited. -/
def ShenandoahRootVerifier.strong_roots_do (v : ShenandoahRootVerifier)
    (eff : RootSource → ShenandoahHeap → ShenandoahHeap) (heap : ShenandoahHeap) :
    List RootSource × ShenandoahHeap :=
  let resetter := ShenandoahGCStateResetter.construct heap
  let trace := [RootSource.StrongCLDGraph, RootSource.JNIHandles, RootSource.VMGlobal,
    RootSource.Threads]
  let final := trace.foldl (fun h s => eff s h) heap
  (trace, resetter.destruct final)

/-- The visitation order claim C4 attributes to `strong_roots_do`, written
from the spec's words (section 4.4): compiled-code references first, then the
strong class-loader subset, the handle tables, and thread roots last. -/
def strongRootsDoClaimedVisits : List RootSource :=
  [RootSource.CodeCacheBlobs, RootSource.StrongCLDGraph, RootSource.JNIHandles,
   RootSource.VMGlobal, RootSource.Threads]

/-- Helper: an element absent from `l` is absent from the conditional chunk
built on `l`. -/
theorem not_mem_flag {α : Type} (a : α) (b : Bool) (l : List α) (h : a ∉ l) :
    a ∉ (if b then l else []) := by
  cases b <;> simp [h]

/-- Helper: membership in a conditional chunk. -/
theorem mem_flag_iff {α : Type} (a : α) (b : Bool) (l : List α) :
    (a ∈ if b then l else []) ↔ (b = true ∧ a ∈ l) := by
  cases b <;> simp

/-- Helper: if `a` does not occur in the front part of an append, and occurs in
the tail only at its final position, then `a` occurs in the append only at its
final position. -/
theorem not_mem_dropLast_append {α : Type} (a : α) (F T : List α)
    (hF : a ∉ F) (hT : a ∉ T.dropLast) : a ∉ (F ++ T).dropLast := by
  cases T with
  | nil =>
    rw [List.append_nil]
    intro hm
    exact hF ((List.dropLast_sublist F).subset hm)
  | cons t ts =>
    intro hm
    rw [List.dropLast_append_cons] at hm
    rcases List.mem_append.mp hm with h1 | h2
    · exact hF h1
    · exact hT h2

/-- C1: each of the three walking entry points restores the collector
phase-state bitfield and the concurrent-weak-in-progress flag to their
pre-walk values, for every configured type set, every dedup configuration,
every per-visit state mutation, and every initial heap state: the
`ShenandoahGCStateResetter` captures both at construction and writes both
snapshots back at scope exit. -/
theorem c1_state_restoration (v : ShenandoahRootVerifier) (d : Bool)
    (eff : RootSource → ShenandoahHeap → ShenandoahHeap) (heap : ShenandoahHeap) :
    ((v.oops_do d eff heap).2.gc_state = heap.gc_state ∧
      (v.oops_do d eff heap).2.concurrent_weak_root_in_progress =
        heap.concurrent_weak_root_in_progress) ∧
    ((v.roots_do d eff heap).2.gc_state = heap.gc_state ∧
      (v.roots_do d eff heap).2.concurrent_weak_root_in_progress =
        heap.concurrent_weak_root_in_progress) ∧
    ((v.strong_roots_do eff heap).2.gc_state = heap.gc_state ∧
      (v.strong_roots_do eff heap).2.concurrent_weak_root_in_progress =
        heap.concurrent_weak_root_in_progress) :=
  ⟨⟨rfl, rfl⟩, ⟨rfl, rfl⟩, ⟨rfl, rfl⟩⟩

/-- C2: in every run of each of the three walking entry points, no source is
visited after the thread-roots source: the `Threads` visit, when present,
occurs only as the final element of the dispatched visit sequence. -/
theorem c2_thread_roots_last (v : ShenandoahRootVerifier) (d : Bool)
    (eff : RootSource → ShenandoahHeap → ShenandoahHeap) (heap : ShenandoahHeap) :
    RootSource.Threads ∉ ((v.oops_do d eff heap).1).dropLast ∧
    RootSource.Threads ∉ ((v.roots_do d eff heap).1).dropLast ∧
    RootSource.Threads ∉ ((v.strong_roots_do eff heap).1).dropLast := by
  refine ⟨?_, ?_, ?_⟩
  · show RootSource.Threads ∉ List.dropLast
      ((if v.verify ShenandoahRootVerifier.CodeRoots then [RootSource.CodeCacheBlobs] else []) ++
      ((if v.verify ShenandoahRootVerifier.CLDGRoots then [RootSource.CLDGraph] else []) ++
      ((if v.verify ShenandoahRootVerifier.JNIHandleRoots then
          [RootSource.JNIHandles, RootSource.VMGlobal] else []) ++
      ((if v.verify ShenandoahRootVerifier.WeakRoots then [RootSource.WeakProcessorAlwaysAlive]
        else if v.verify ShenandoahRootVerifier.SerialWeakRoots then [RootSource.SerialWeakPhases]
        else if v.verify ShenandoahRootVerifier.ConcurrentWeakRoots then
          [RootSource.ConcurrentWeakStorages] else []) ++
      ((if d && v.verify ShenandoahRootVerifier.StringDedupRoots then
          [RootSource.StringDedupTable] else []) ++
      (if v.verify ShenandoahRootVerifier.ThreadRoots then [RootSource.Threads] else []))))))
    apply not_mem_dropLast_append _ _ _ (not_mem_flag _ _ _ (by decide))
    apply not_mem_dropLast_append _ _ _ (not_mem_flag _ _ _ (by decide))
    apply not_mem_dropLast_append _ _ _ (not_mem_flag _ _ _ (by decide))
    apply not_mem_dropLast_append
    · cases v.verify ShenandoahRootVerifier.WeakRoots <;>
        cases v.verify ShenandoahRootVerifier.SerialWeakRoots <;>
        cases v.verify ShenandoahRootVerifier.ConcurrentWeakRoots <;> simp
    apply not_mem_dropLast_append _ _ _ (not_mem_flag _ _ _ (by decide))
    cases v.verify ShenandoahRootVerifier.ThreadRoots <;> simp
  · have h : (v.roots_do d eff heap).1 =
        [RootSource.CodeCacheBlobs, RootSource.CLDGraph, RootSource.JNIHandles,
         RootSource.VMGlobal, RootSource.WeakProcessorAlwaysAlive] ++
        ((if d then [RootSource.StringDedupTable] else []) ++ [RootSource.Threads]) := rfl
    rw [h]
    cases d <;> decide
  · have h : (v.strong_roots_do eff heap).1 =
        [RootSource.StrongCLDGraph, RootSource.JNIHandles, RootSource.VMGlobal,
         RootSource.Threads] := rfl
    rw [h]
    decide

/-- C3: in a filtered walk, at most one of the three weak-root strategies runs,
with priority WeakRoots over SerialWeakRoots over ConcurrentWeakRoots: the full
weak walk runs exactly when WeakRoots is contained; the serial phase-enumerated
strategy runs exactly when WeakRoots is absent and SerialWeakRoots contained;
the concurrent-storage strategy runs exactly when both are absent and
ConcurrentWeakRoots contained. -/
theorem c3_weak_priority (v : ShenandoahRootVerifier) (d : Bool)
    (eff : RootSource → ShenandoahHeap → ShenandoahHeap) (heap : ShenandoahHeap) :
    (RootSource.WeakProcessorAlwaysAlive ∈ (v.oops_do d eff heap).1 ↔
      v.verify ShenandoahRootVerifier.WeakRoots = true) ∧
    (RootSource.SerialWeakPhases ∈ (v.oops_do d eff heap).1 ↔
      (v.verify ShenandoahRootVerifier.WeakRoots = false ∧
       v.verify ShenandoahRootVerifier.SerialWeakRoots = true)) ∧
    (RootSource.ConcurrentWeakStorages ∈ (v.oops_do d eff heap).1 ↔
      (v.verify ShenandoahRootVerifier.WeakRoots = false ∧
       v.verify ShenandoahRootVerifier.SerialWeakRoots = false ∧
       v.verify ShenandoahRootVerifier.ConcurrentWeakRoots = true)) := by
  cases hw : v.verify ShenandoahRootVerifier.WeakRoots <;>
    cases hs : v.verify ShenandoahRootVerifier.SerialWeakRoots <;>
    cases hc : v.verify ShenandoahRootVerifier.ConcurrentWeakRoots <;>
    simp [ShenandoahRootVerifier.oops_do, hw, hs, hc, mem_flag_iff]

/-- C4 (counterexample): at the concrete configuration AllRoots, identity
callback effect, and a zeroed heap, the visit sequence of `strong_roots_do` is
not the one the claim states — there is no standalone compiled-code visit at
the front. -/
theorem c4_counterexample :
    ((ShenandoahRootVerifier.mk ShenandoahRootVerifier.AllRoots).strong_roots_do
      (fun _ h => h) ⟨0, false, 0⟩).1 ≠ strongRootsDoClaimedVisits := by
  decide

/-- C4 (amended): `strong_roots_do`, for every callback and heap configuration,
visits exactly the strongly-reachable subset of the class-loader graph, the
handle tables (JNI handles then VM-global handles), then thread roots last;
it performs no standalone compiled-code-registry visit (compiled code is
reached only through the code-blob closure handed to the thread walk) and it
never visits the weak-reference processor or the string-deduplication table. -/
theorem c4_strong_roots_do_amended (v : ShenandoahRootVerifier)
    (eff : RootSource → ShenandoahHeap → ShenandoahHeap) (heap : ShenandoahHeap) :
    (v.strong_roots_do eff heap).1 =
      [RootSource.StrongCLDGraph, RootSource.JNIHandles, RootSource.VMGlobal,
       RootSource.Threads] ∧
    RootSource.CodeCacheBlobs ∉ (v.strong_roots_do eff heap).1 ∧
    RootSource.WeakProcessorAlwaysAlive ∉ (v.strong_roots_do eff heap).1 ∧
    RootSource.SerialWeakPhases ∉ (v.strong_roots_do eff heap).1 ∧
    RootSource.ConcurrentWeakStorages ∉ (v.strong_roots_do eff heap).1 ∧
    RootSource.StringDedupTable ∉ (v.strong_roots_do eff heap).1 := by
  have h : (v.strong_roots_do eff heap).1 =
      [RootSource.StrongCLDGraph, RootSource.JNIHandles, RootSource.VMGlobal,
       RootSource.Threads] := rfl
  rw [h]
  refine ⟨rfl, ?_, ?_, ?_, ?_, ?_⟩ <;> decide

/-- C5: `roots_do` ignores the configured type set entirely and unconditionally
visits the canonical complete root set in the fixed order compiled code,
class-loader graph, handle tables, full always-alive weak walk, then the
string-dedup table exactly when deduplication is enabled, then thread roots
last; no source is visited more than once in a run. -/
theorem c5_roots_do_canonical (v w : ShenandoahRootVerifier) (d : Bool)
    (eff : RootSource → ShenandoahHeap → ShenandoahHeap) (heap : ShenandoahHeap) :
    (v.roots_do d eff heap).1 = (w.roots_do d eff heap).1 ∧
    (v.roots_do true eff heap).1 =
      [RootSource.CodeCacheBlobs, RootSource.CLDGraph, RootSource.JNIHandles,
       RootSource.VMGlobal, RootSource.WeakProcessorAlwaysAlive,
       RootSource.StringDedupTable, RootSource.Threads] ∧
    (v.roots_do false eff heap).1 =
      [RootSource.CodeCacheBlobs, RootSource.CLDGraph, RootSource.JNIHandles,
       RootSource.VMGlobal, RootSource.WeakProcessorAlwaysAlive, RootSource.Threads] ∧
    (∀ x : RootSource, (v.roots_do d eff heap).1.count x ≤ 1) := by
  refine ⟨rfl, rfl, rfl, ?_⟩
  have h : (v.roots_do d eff heap).1 =
      [RootSource.CodeCacheBlobs, RootSource.CLDGraph, RootSource.JNIHandles,
       RootSource.VMGlobal, RootSource.WeakProcessorAlwaysAlive] ++
      ((if d then [RootSource.StringDedupTable] else []) ++ [RootSource.Threads]) := rfl
  rw [h]
  intro x
  cases d <;> cases x <;> decide

/-- Helper: `s &&& c = c` means every bit of `c` is also a bit of `s`. -/
theorem land_eq_right_iff (s c : Nat) :
    (s &&& c = c) ↔ ∀ i, c.testBit i = true → s.testBit i = true := by
  constructor
  · intro h i hi
    have h2 : (s &&& c).testBit i = c.testBit i := by rw [h]
    rwa [Nat.testBit_land, hi, Bool.and_true] at h2
  · intro h
    apply Nat.eq_of_testBit_eq
    intro i
    rw [Nat.testBit_land]
    cases hci : c.testBit i
    · rw [Bool.and_false]
    · rw [h i hci, Bool.true_and]

/-- C6: the containment test returns true exactly when every bit of the tested
category bitmask is set in the configured set (all-bits-present semantics);
in particular a verifier configured with AllRoots contains each of the nine
individually defined categories. -/
theorem c6_verify_all_bits :
    (∀ s c : Nat, (ShenandoahRootVerifier.mk s).verify c = true ↔
      ∀ i, c.testBit i = true → s.testBit i = true) ∧
    ((ShenandoahRootVerifier.mk ShenandoahRootVerifier.AllRoots).verify
        ShenandoahRootVerifier.CodeRoots = true ∧
     (ShenandoahRootVerifier.mk ShenandoahRootVerifier.AllRoots).verify
        ShenandoahRootVerifier.CLDGRoots = true ∧
     (ShenandoahRootVerifier.mk ShenandoahRootVerifier.AllRoots).verify
        ShenandoahRootVerifier.SerialRoots = true ∧
     (ShenandoahRootVerifier.mk ShenandoahRootVerifier.AllRoots).verify
        ShenandoahRootVerifier.JNIHandleRoots = true ∧
     (ShenandoahRootVerifier.mk ShenandoahRootVerifier.AllRoots).verify
        ShenandoahRootVerifier.WeakRoots = true ∧
     (ShenandoahRootVerifier.mk ShenandoahRootVerifier.AllRoots).verify
        ShenandoahRootVerifier.SerialWeakRoots = true ∧
     (ShenandoahRootVerifier.mk ShenandoahRootVerifier.AllRoots).verify
        ShenandoahRootVerifier.ConcurrentWeakRoots = true ∧
     (ShenandoahRootVerifier.mk ShenandoahRootVerifier.AllRoots).verify
        ShenandoahRootVerifier.StringDedupRoots = true ∧
     (ShenandoahRootVerifier.mk ShenandoahRootVerifier.AllRoots).verify
        ShenandoahRootVerifier.ThreadRoots = true) := by
  constructor
  · intro s c
    simp only [ShenandoahRootVerifier.verify, beq_iff_eq]
    exact land_eq_right_iff s c
  · decide

/-- C7: excluding a category mask from the combination of a set with that mask
yields the same bitmask as excluding it from the set directly, for every
32-bit category mask. -/
theorem c7_excludes_combine (s c : Nat) (hc : c < 2 ^ 32) :
    (ShenandoahRootVerifier.mk (ShenandoahRootVerifier.combine s c)).excludes c =
      (ShenandoahRootVerifier.mk s).excludes c := by
  simp only [ShenandoahRootVerifier.excludes, ShenandoahRootVerifier.combine]
  congr 1
  apply Nat.eq_of_testBit_eq
  intro i
  rw [Nat.testBit_land, Nat.testBit_land, Nat.testBit_lor]
  rcases lt_or_ge i 32 with hi | hi
  · have hm : (uintNot c).testBit i = !(c.testBit i) := by
      rw [uintNot, Nat.testBit_xor, Nat.testBit_two_pow_sub_one, decide_eq_true hi]
      cases c.testBit i <;> rfl
    rw [hm]
    cases c.testBit i <;> cases s.testBit i <;> rfl
  · have hcb : c.testBit i = false :=
      Nat.testBit_lt_two_pow (lt_of_lt_of_le hc (Nat.pow_le_pow_right (by norm_num) hi))
    have hm : (uintNot c).testBit i = false := by
      rw [uintNot, Nat.testBit_xor, Nat.testBit_two_pow_sub_one, hcb]
      simp [Nat.not_lt.mpr hi]
    rw [hm, hcb]
    cases s.testBit i <;> rfl

/-- C7 witness: the theorem applied at s = 5, c = 6, discharging the 32-bit
bound there. -/
theorem c7_witness :
    (ShenandoahRootVerifier.mk (ShenandoahRootVerifier.combine 5 6)).excludes 6 =
      (ShenandoahRootVerifier.mk 5).excludes 6 :=
  c7_excludes_combine 5 6 (by norm_num)

/-- C8: the statically asserted overflow check holds for the modelled
categories: incrementing AllRoots does not wrap at the 32-bit width of the
unsigned mask type, AllRoots fits in that width, and AllRoots is not the
maximum 32-bit value. -/
theorem c8_allroots_static_assert :
    (ShenandoahRootVerifier.AllRoots + 1) % 2 ^ 32 > ShenandoahRootVerifier.AllRoots % 2 ^ 32 ∧
    ShenandoahRootVerifier.AllRoots < 2 ^ 32 ∧
    ShenandoahRootVerifier.AllRoots ≠ 2 ^ 32 - 1 := by
  decide

/-- C9: the containment test distributes over combination: a combined mask is
contained in a set exactly when both of its parts are. -/
theorem c9_verify_combine (s t1 t2 : Nat) :
    (ShenandoahRootVerifier.mk s).verify (ShenandoahRootVerifier.combine t1 t2) = true ↔
      ((ShenandoahRootVerifier.mk s).verify t1 = true ∧
       (ShenandoahRootVerifier.mk s).verify t2 = true) := by
  simp only [ShenandoahRootVerifier.verify, ShenandoahRootVerifier.combine, beq_iff_eq]
  rw [land_eq_right_iff, land_eq_right_iff, land_eq_right_iff]
  constructor
  · intro h
    constructor
    · intro i hi
      exact h i (by rw [Nat.testBit_lor, hi, Bool.true_or])
    · intro i hi
      exact h i (by rw [Nat.testBit_lor, hi, Bool.or_true])
  · intro h i hi
    rw [Nat.testBit_lor] at hi
    cases h1 : t1.testBit i
    · cases h2 : t2.testBit i
      · rw [h1, h2] at hi
        exact absurd hi (by decide)
      · exact h.2 i h2
    · exact h.1 i h1

/-- C10: the containment test applied to the empty category bitmask returns
true on every verifier, since a conjunction of zero bit requirements is
vacuously satisfied. -/
theorem c10_verify_empty (s : Nat) : (ShenandoahRootVerifier.mk s).verify 0 = true := by
  simp [ShenandoahRootVerifier.verify]
